import Mathlib

/-!
Verification of the EthOS-Tracker dashboard logic
(`src/ETHOS-Tracker/lib/utils.ts`).

The TypeScript source is shallowly embedded below. JavaScript numbers are
modelled as exact rationals (`ℚ`) together with the special values `NaN`,
`+Infinity` and `-Infinity`; JavaScript values reaching the numeric safety
helper are modelled by the inductive `JSValue` covering `undefined`, `null`,
booleans and numbers. `Number.prototype.toFixed` is modelled per the
ECMAScript algorithm: pick the integer `n` minimising the distance of
`n / 10^d` to the absolute value of the argument, ties resolved to the larger
`n`, then print with `d` digits after the point, prefixing a minus sign for
negative inputs. React state updates are modelled as explicit state passing:
`setAlerts (prev => e)` becomes a function from the alert list to the alert
list, and a fetch cycle is a function on the whole dashboard state.
-/

namespace EthosTracker

/-- A JavaScript number: either a finite value (modelled exactly as a
rational) or one of the special values `NaN`, `+Infinity`, `-Infinity`. -/
inductive JSNum where
  | finite (q : ℚ)
  | nan
  | posInf
  | negInf
deriving DecidableEq, Repr

/-- A JavaScript value as it can reach `safeNumber` in the source:
`undefined` (e.g. a missing response field accessed with `?.`), `null`,
a boolean, or a number. -/
inductive JSValue where
  | undef
  | null
  | boolean (b : Bool)
  | number (n : JSNum)
deriving DecidableEq, Repr

/-- The ECMAScript `Number(value)` coercion on the modelled value universe:
`undefined ↦ NaN`, `null ↦ 0`, `false ↦ 0`, `true ↦ 1`, numbers unchanged. -/
def toNumber : JSValue → JSNum
  | JSValue.undef => JSNum.nan
  | JSValue.null => JSNum.finite 0
  | JSValue.boolean b => JSNum.finite (if b then 1 else 0)
  | JSValue.number n => n

/-- Source `safeNumber` (utils.ts lines 42-45):
`const num = Number(value); return isNaN(num) || !isFinite(num) ? fallback : num`.
`isNaN` holds exactly for `NaN` and `isFinite` fails exactly for `NaN` and the
two infinities, so the fallback is returned unless the coercion is finite. -/
def safeNumber (value : JSValue) (fallback : ℚ) : ℚ :=
  match toNumber value with
  | JSNum.finite q => q
  | JSNum.nan => fallback
  | JSNum.posInf => fallback
  | JSNum.negInf => fallback

/-- Round `x * 10 ^ d` (for nonnegative `x`) to the nearest integer, ties
going to the larger integer, as ECMAScript `toFixed` requires:
`⌊x * 10 ^ d + 1/2⌋ = ⌊(2 * num * 10 ^ d + den) / (2 * den)⌋`, computed on the
reduced numerator and denominator so that the kernel can evaluate it. -/
def roundTiesUpScaled (x : ℚ) (d : ℕ) : ℕ :=
  (2 * x.num.toNat * 10 ^ d + x.den) / (2 * x.den)

/-- Decimal rendering of a nonnegative rational with `d` digits after the
point: the digit string of the rounded scaled value, zero-padded to at least
`d + 1` digits, with a point inserted `d` digits from the right. -/
def toFixedNonneg (x : ℚ) (d : ℕ) : String :=
  let n := roundTiesUpScaled x d
  let ds := Nat.toDigits 10 n
  if d = 0 then String.mk ds
  else
    let padded := List.replicate (d + 1 - ds.length) '0' ++ ds
    String.mk (padded.take (padded.length - d) ++ '.' :: padded.drop (padded.length - d))

/-- ECMAScript `Number.prototype.toFixed` on exact rationals: negative inputs
are rendered as the minus sign followed by the rendering of the absolute
value. -/
def toFixed (x : ℚ) (d : ℕ) : String :=
  if x < 0 then "-" ++ toFixedNonneg (-x) d else toFixedNonneg x d

/-- Source exported `formatPrice` (utils.ts lines 7-9):
`price.toFixed(decimals)` (the source defaults `decimals` to 2; the embedding
passes it explicitly). -/
def formatPrice (price : ℚ) (decimals : ℕ) : String :=
  toFixed price decimals

/-- Source exported `formatChange` (utils.ts lines 11-13): the sign prefix is
emitted for `change > 0` (strictly positive), then `change.toFixed(2)` and a
percent sign. -/
def formatChange (change : ℚ) : String :=
  (if 0 < change then "+" else "") ++ toFixed change 2 ++ "%"

/-- Source component-local `formatPrice` (utils.ts lines 47-50): normalises
its argument through `safeNumber` with fallback 0 before `toFixed`. -/
def formatPriceD (price : JSValue) (decimals : ℕ) : String :=
  toFixed (safeNumber price 0) decimals

/-- Source component-local `formatChange` (utils.ts lines 52-55): normalises
through `safeNumber` with fallback 0, then formats like the exported one. -/
def formatChangeD (change : JSValue) : String :=
  let safeChange := safeNumber change 0
  (if 0 < safeChange then "+" else "") ++ toFixed safeChange 2 ++ "%"

/-- Source alert direction (`"above" | "below"` in the `PriceAlert`
interface, utils.ts line 30). -/
inductive AlertType where
  | above
  | below
deriving DecidableEq, Repr

/-- Source `PriceAlert` interface (utils.ts lines 27-33). -/
structure PriceAlert where
  id : String
  symbol : String
  type : AlertType
  threshold : ℚ
  isActive : Bool
deriving DecidableEq, Repr

/-- Source `TokenData` interface (utils.ts lines 19-25); the optional
`contract` field becomes an `Option`. -/
structure TokenData where
  symbol : String
  name : String
  price : ℚ
  change24h : ℚ
  contract : Option String
deriving DecidableEq, Repr

/-- Source `shouldTrigger` expression (utils.ts lines 126-128):
`(alert.type === "above" && currentPrice >= alert.threshold) ||
 (alert.type === "below" && currentPrice <= alert.threshold)`. -/
def shouldTrigger (alert : PriceAlert) (currentPrice : ℚ) : Bool :=
  (alert.type == AlertType.above && decide (alert.threshold ≤ currentPrice)) ||
  (alert.type == AlertType.below && decide (currentPrice ≤ alert.threshold))

/-- The guard of the evaluator body (utils.ts lines 125-130): the alert's
symbol matches the evaluated symbol, the alert is active, and its trigger
condition holds at the current price. -/
def alertMatches (currentPrice : ℚ) (symbol : String) (alert : PriceAlert) : Bool :=
  alert.symbol == symbol && alert.isActive && shouldTrigger alert currentPrice

/-- The record update performed on a triggered alert: `{ ...a, isActive: false }`
(utils.ts line 141). -/
def deactivate (a : PriceAlert) : PriceAlert :=
  { a with isActive := false }

/-- Source deactivation state update (utils.ts lines 140-142):
`setAlerts(prev => prev.map(a => a.id === alert.id ? { ...a, isActive: false } : a))`. -/
def deactivateById (i : String) (l : List PriceAlert) : List PriceAlert :=
  l.map fun a => if a.id = i then deactivate a else a

/-- One iteration of the `alerts.forEach` body of `checkPriceAlerts`
(utils.ts lines 124-145), acting on the pair of the current alert-list state
and the list of alerts for which a notification was requested so far. The
guard is evaluated on the iterated snapshot element `alert`, while the
deactivation is applied by id to the current state, exactly as the source's
functional `setAlerts` update does. -/
def checkStep (currentPrice : ℚ) (symbol : String)
    (st : List PriceAlert × List PriceAlert) (alert : PriceAlert) :
    List PriceAlert × List PriceAlert :=
  if alertMatches currentPrice symbol alert then
    (deactivateById alert.id st.1, st.2 ++ [alert])
  else st

/-- Source `checkPriceAlerts` (utils.ts lines 123-146) as a state
transformer: it iterates over the alert list, and returns the updated alert
list together with the list of triggered alerts (each of which produces a
notification request; whether the notification is shown also depends on the
external permission state). -/
def checkPriceAlerts (currentPrice : ℚ) (symbol : String)
    (alerts : List PriceAlert) : List PriceAlert × List PriceAlert :=
  alerts.foldl (checkStep currentPrice symbol) (alerts, [])

/-- Source `createAlert` (utils.ts lines 148-157): build the new alert with
the generated id (`Date.now().toString()`, passed here as `nowId`) and append
it (`setAlerts(prev => [...prev, newAlert])`). -/
def createAlert (nowId : String) (symbol : String) (ty : AlertType)
    (threshold : ℚ) (alerts : List PriceAlert) : List PriceAlert :=
  alerts ++ [{ id := nowId, symbol := symbol, type := ty,
               threshold := threshold, isActive := true }]

/-- Source `handleSubmit` (utils.ts lines 178-186): `parseFloat(threshold)`
is modelled as `Option ℚ` (`none` for `NaN`, i.e. a non-numeric field; a
number-input value is always a decimal string or empty, so the parse is
finite when it succeeds). The alert is created only when `thresholdNum > 0`;
a `NaN` comparison is false in JavaScript, so `none` creates nothing. -/
def handleSubmit (nowId : String) (symbol : String) (ty : AlertType)
    (thresholdNum : Option ℚ) (alerts : List PriceAlert) : List PriceAlert :=
  match thresholdNum with
  | some t => if 0 < t then createAlert nowId symbol ty t alerts else alerts
  | none => alerts

/-- Source delete handler (utils.ts line 430):
`setAlerts(prev => prev.filter(a => a.id !== alert.id))`. -/
def deleteAlert (i : String) (alerts : List PriceAlert) : List PriceAlert :=
  alerts.filter fun a => decide (a.id ≠ i)

/-- The fields of the fetched JSON snapshot that the source reads
(utils.ts lines 67-98): `data.X?.usd` and `data.X?.usd_24h_change` for the
five queried ids; a missing object or field yields `undefined`. -/
structure ApiData where
  ethereum_usd : JSValue
  ethereum_change : JSValue
  bitcoin_usd : JSValue
  bitcoin_change : JSValue
  usd_coin_usd : JSValue
  usd_coin_change : JSValue
  chainlink_usd : JSValue
  chainlink_change : JSValue
  uniswap_usd : JSValue
  uniswap_change : JSValue
deriving DecidableEq, Repr

/-- The `cryptoTokens` list built on a successful fetch
(utils.ts lines 67-98), with the literal fallback values of the source. -/
def buildTokens (data : ApiData) : List TokenData :=
  [ { symbol := "ETH", name := "Ethereum",
      price := safeNumber data.ethereum_usd 2340,
      change24h := safeNumber data.ethereum_change 0, contract := none },
    { symbol := "BTC", name := "Bitcoin",
      price := safeNumber data.bitcoin_usd 43250,
      change24h := safeNumber data.bitcoin_change 0, contract := none },
    { symbol := "USDC", name := "USD Coin",
      price := safeNumber data.usd_coin_usd 1.0,
      change24h := safeNumber data.usd_coin_change 0, contract := none },
    { symbol := "LINK", name := "Chainlink",
      price := safeNumber data.chainlink_usd 14.85,
      change24h := safeNumber data.chainlink_change 0, contract := none },
    { symbol := "UNI", name := "Uniswap",
      price := safeNumber data.uniswap_usd 6.42,
      change24h := safeNumber data.uniswap_change 0, contract := none } ]

/-- The synthesized `airTokenData` (utils.ts lines 100-108): `r1` and `r2`
are the two `Math.random()` draws, each in `[0, 1)`. -/
def airTokenData (r1 r2 : ℚ) : TokenData :=
  { symbol := "AIR", name := "AIR Token",
    price := safeNumber
      (JSValue.number (JSNum.finite (0.00676 + (r1 - 0.5) * 0.00005))) 0.00676,
    change24h := safeNumber
      (JSValue.number (JSNum.finite (1.8 + (r2 - 0.5) * 3))) 1.8,
    contract := some "0x8164b40840418c77a68f6f9eedb5202b36d8b288" }

/-- The component state touched by the fetch cycle: the `tokens`,
`airToken`, `loading` and `alerts` pieces of `useState`
(utils.ts lines 36-39). -/
structure DashState where
  tokens : List TokenData
  airToken : Option TokenData
  loading : Bool
  alerts : List PriceAlert
deriving Repr

/-- Source `fetchCryptoData` (utils.ts lines 57-121) as a state transition.
`resp = none` models any failure reaching the `catch` block — network error,
a non-ok response, or a JSON parse error — where only `setLoading(false)`
runs (the `console.error` is external output). On success the token list is
built, the AIR token synthesized from the random draws `r1`, `r2`, the
evaluator run once for AIR and once per fetched token, and the state fields
replaced. -/
def fetchCryptoData (resp : Option ApiData) (r1 r2 : ℚ) (st : DashState) :
    DashState :=
  match resp with
  | none => { st with loading := false }
  | some data =>
    let cryptoTokens := buildTokens data
    let airTok := airTokenData r1 r2
    let alerts1 := (checkPriceAlerts airTok.price "AIR" st.alerts).1
    let alerts2 := cryptoTokens.foldl
      (fun al t => (checkPriceAlerts t.price t.symbol al).1) alerts1
    { tokens := cryptoTokens, airToken := some airTok,
      loading := false, alerts := alerts2 }

/-- A sequence of evaluator invocations, each with a price and a symbol:
returns the final alert list and the concatenated list of triggered
alerts. -/
def runChecks : List (ℚ × String) → List PriceAlert →
    List PriceAlert × List PriceAlert
  | [], alerts => (alerts, [])
  | (p, s) :: rest, alerts =>
    let r := checkPriceAlerts p s alerts
    let r2 := runChecks rest r.1
    (r2.1, r.2 ++ r2.2)

/-- The ETH alert of the spec's worked example. -/
def ethAlert : PriceAlert :=
  { id := "1", symbol := "ETH", type := AlertType.above,
    threshold := 3000, isActive := true }

/-- Default alert used with `List.getD` when stating positional facts. -/
def dfltAlert : PriceAlert :=
  { id := "", symbol := "", type := AlertType.above,
    threshold := 0, isActive := true }

/-- A response in which every read field is absent (`undefined`). -/
def allUndefData : ApiData :=
  { ethereum_usd := JSValue.undef, ethereum_change := JSValue.undef,
    bitcoin_usd := JSValue.undef, bitcoin_change := JSValue.undef,
    usd_coin_usd := JSValue.undef, usd_coin_change := JSValue.undef,
    chainlink_usd := JSValue.undef, chainlink_change := JSValue.undef,
    uniswap_usd := JSValue.undef, uniswap_change := JSValue.undef }

/-- Two active alerts with distinct identifiers and different symbols, used
as a concrete frame example. -/
def frameWitnessAlerts : List PriceAlert :=
  [ { id := "1", symbol := "A", type := AlertType.above,
      threshold := 10, isActive := true },
    { id := "2", symbol := "B", type := AlertType.above,
      threshold := 999, isActive := true } ]

/-- Whether a value fails the numeric guard of `safeNumber`, i.e. its
`Number` coercion is `NaN` or infinite, so that the fallback is used. -/
def badNum (v : JSValue) : Bool :=
  match toNumber v with
  | JSNum.finite _ => false
  | JSNum.nan => true
  | JSNum.posInf => true
  | JSNum.negInf => true

/-- Characterisation of the net effect of the evaluator on the alert list:
every alert whose id belongs to `ids` is deactivated, all others are kept.
Used only to state and prove the closed form of `checkPriceAlerts`. -/
def deactList (ids : List String) (l : List PriceAlert) : List PriceAlert :=
  l.map fun a => if a.id ∈ ids then deactivate a else a

/-- The ids of the alerts that trigger during one evaluator invocation. -/
def triggeredIds (currentPrice : ℚ) (symbol : String)
    (alerts : List PriceAlert) : List String :=
  (alerts.filter (alertMatches currentPrice symbol)).map fun a => a.id

example : formatPrice (mkRat 676 100000) 5 = "0.00676" := by decide
example : formatChange (mkRat (-3456) 1000) = "-3.46%" := by decide
example : formatChange 5 = "+5.00%" := by decide
example : formatChange 0 = "0.00%" := by decide
example : formatChange (mkRat (-1) 1000) = "-0.00%" := by decide
example :
    checkPriceAlerts (mkRat 299999 100) "ETH" [ethAlert] = ([ethAlert], []) := by
  decide
example :
    checkPriceAlerts 3000 "ETH" [ethAlert] =
      ([deactivate ethAlert], [ethAlert]) := by
  decide
example :
    checkPriceAlerts 3000 "ETH" [deactivate ethAlert] =
      ([deactivate ethAlert], []) := by
  decide

@[simp]
lemma deactivate_id (a : PriceAlert) : (deactivate a).id = a.id := rfl

@[simp]
lemma deactivate_symbol (a : PriceAlert) : (deactivate a).symbol = a.symbol := rfl

@[simp]
lemma deactivate_type (a : PriceAlert) : (deactivate a).type = a.type := rfl

@[simp]
lemma deactivate_threshold (a : PriceAlert) :
    (deactivate a).threshold = a.threshold := rfl

@[simp]
lemma deactivate_isActive (a : PriceAlert) :
    (deactivate a).isActive = false := rfl

@[simp]
lemma deactivate_deactivate (a : PriceAlert) :
    deactivate (deactivate a) = deactivate a := rfl

lemma deactivate_of_inactive (a : PriceAlert) (h : a.isActive = false) :
    deactivate a = a := by
  cases a
  simp only [deactivate]
  simp_all

lemma alertMatches_active (p : ℚ) (s : String) (a : PriceAlert)
    (h : alertMatches p s a = true) : a.isActive = true := by
  simp only [alertMatches, Bool.and_eq_true] at h
  exact h.1.2

lemma deactIte_comp (i : String) (ids : List String) (a : PriceAlert) :
    (if (if a.id = i then deactivate a else a).id ∈ ids
      then deactivate (if a.id = i then deactivate a else a)
      else (if a.id = i then deactivate a else a)) =
      (if a.id ∈ i :: ids then deactivate a else a) := by
  by_cases h1 : a.id = i <;> by_cases h2 : a.id ∈ ids <;>
    simp [h1, h2]

lemma deactList_deactivateById (i : String) (ids : List String)
    (l : List PriceAlert) :
    deactList ids (deactivateById i l) = deactList (i :: ids) l := by
  induction l with
  | nil => rfl
  | cons a tl ih =>
    simp only [deactList, deactivateById, List.map_cons] at ih ⊢
    rw [deactIte_comp]
    exact congrArg _ ih

lemma foldl_checkStep_eq (p : ℚ) (s : String) (L : List PriceAlert)
    (acc : List PriceAlert × List PriceAlert) :
    L.foldl (checkStep p s) acc =
      (deactList ((L.filter (alertMatches p s)).map fun a => a.id) acc.1,
       acc.2 ++ L.filter (alertMatches p s)) := by
  induction L generalizing acc with
  | nil => simp [deactList]
  | cons hd tl ih =>
    by_cases h : alertMatches p s hd
    · simp only [List.foldl_cons, checkStep, h, if_true, List.filter_cons_of_pos,
        List.map_cons, ih, deactList_deactivateById]
      simp
    · simp only [List.foldl_cons, checkStep, h, if_neg, Bool.false_eq_true,
        not_false_iff, List.filter_cons_of_neg, ih]

lemma checkPriceAlerts_eq (p : ℚ) (s : String) (alerts : List PriceAlert) :
    checkPriceAlerts p s alerts =
      (deactList (triggeredIds p s alerts) alerts,
       alerts.filter (alertMatches p s)) := by
  simpa [checkPriceAlerts, triggeredIds] using
    foldl_checkStep_eq p s alerts (alerts, [])

@[simp]
lemma deactList_length (ids : List String) (l : List PriceAlert) :
    (deactList ids l).length = l.length := by
  simp [deactList]

lemma checkPriceAlerts_length (p : ℚ) (s : String) (l : List PriceAlert) :
    (checkPriceAlerts p s l).1.length = l.length := by
  rw [checkPriceAlerts_eq]
  simp

@[simp]
lemma deactIte_id (ids : List String) (a : PriceAlert) :
    (if a.id ∈ ids then deactivate a else a).id = a.id := by
  by_cases h : a.id ∈ ids <;> simp [h]

lemma deactList_map_id (ids : List String) (l : List PriceAlert) :
    (deactList ids l).map (fun a => a.id) = l.map fun a => a.id := by
  induction l with
  | nil => rfl
  | cons a tl ih =>
    simp only [deactList, List.map_cons] at ih ⊢
    rw [deactIte_id]
    exact congrArg _ ih

lemma checkPriceAlerts_map_id (p : ℚ) (s : String) (l : List PriceAlert) :
    (checkPriceAlerts p s l).1.map (fun a => a.id) = l.map fun a => a.id := by
  rw [checkPriceAlerts_eq]
  exact deactList_map_id _ _

lemma deactList_getD (ids : List String) (l : List PriceAlert) (n : ℕ)
    (h : n < l.length) :
    (deactList ids l).getD n dfltAlert =
      (if (l.getD n dfltAlert).id ∈ ids then deactivate (l.getD n dfltAlert)
       else l.getD n dfltAlert) := by
  rw [List.getD_eq_getElem _ _ (by simpa using h), List.getD_eq_getElem _ _ h]
  simp [deactList]

lemma checkPriceAlerts_getD (p : ℚ) (s : String) (l : List PriceAlert) (n : ℕ)
    (h : n < l.length) :
    (checkPriceAlerts p s l).1.getD n dfltAlert =
      (if (l.getD n dfltAlert).id ∈ triggeredIds p s l
       then deactivate (l.getD n dfltAlert) else l.getD n dfltAlert) := by
  rw [checkPriceAlerts_eq]
  exact deactList_getD _ _ _ h

lemma checkPriceAlerts_inactive_getD (p : ℚ) (s : String) (l : List PriceAlert)
    (n : ℕ) (h : n < l.length)
    (ha : (l.getD n dfltAlert).isActive = false) :
    (checkPriceAlerts p s l).1.getD n dfltAlert = l.getD n dfltAlert := by
  rw [checkPriceAlerts_getD p s l n h]
  by_cases hm : (l.getD n dfltAlert).id ∈ triggeredIds p s l
  · rw [if_pos hm]
    exact deactivate_of_inactive _ ha
  · rw [if_neg hm]

lemma checkPriceAlerts_fired_active (p : ℚ) (s : String) (l : List PriceAlert)
    (a : PriceAlert) (h : a ∈ (checkPriceAlerts p s l).2) :
    a.isActive = true := by
  rw [checkPriceAlerts_eq] at h
  exact alertMatches_active p s a (List.of_mem_filter h)

lemma runChecks_length (seq : List (ℚ × String)) (l : List PriceAlert) :
    (runChecks seq l).1.length = l.length := by
  induction seq generalizing l with
  | nil => rfl
  | cons hd tl ih =>
    obtain ⟨p, s⟩ := hd
    simp only [runChecks]
    rw [ih, checkPriceAlerts_length]

lemma runChecks_inactive_getD (seq : List (ℚ × String)) (l : List PriceAlert)
    (n : ℕ) (h : n < l.length)
    (ha : (l.getD n dfltAlert).isActive = false) :
    (runChecks seq l).1.getD n dfltAlert = l.getD n dfltAlert := by
  induction seq generalizing l with
  | nil => rfl
  | cons hd tl ih =>
    obtain ⟨p, s⟩ := hd
    simp only [runChecks]
    have hkeep := checkPriceAlerts_inactive_getD p s l n h ha
    have hlen : n < (checkPriceAlerts p s l).1.length := by
      rw [checkPriceAlerts_length]; exact h
    rw [ih _ hlen (by rw [hkeep]; exact ha), hkeep]

lemma runChecks_fired_active (seq : List (ℚ × String)) (l : List PriceAlert)
    (a : PriceAlert) (h : a ∈ (runChecks seq l).2) : a.isActive = true := by
  induction seq generalizing l with
  | nil => simp [runChecks] at h
  | cons hd tl ih =>
    obtain ⟨p, s⟩ := hd
    simp only [runChecks, List.mem_append] at h
    rcases h with h | h
    · exact checkPriceAlerts_fired_active p s l a h
    · exact ih _ h

lemma not_mem_triggeredIds (p : ℚ) (s : String) (l : List PriceAlert)
    (hn : (l.map fun a => a.id).Nodup) (a : PriceAlert) (hal : a ∈ l)
    (hm : alertMatches p s a = false) : a.id ∉ triggeredIds p s l := by
  intro hmem
  obtain ⟨b, hb, hid⟩ := List.mem_map.1 hmem
  have hbl : b ∈ l := List.mem_of_mem_filter hb
  have hbm : alertMatches p s b = true := List.of_mem_filter hb
  have hab : a = b := List.inj_on_of_nodup_map hn hal hbl hid.symm
  rw [← hab, hm] at hbm
  cases hbm

lemma safeNumber_of_badNum (v : JSValue) (fb : ℚ) (h : badNum v = true) :
    safeNumber v fb = fb := by
  unfold badNum at h
  unfold safeNumber
  cases htv : toNumber v
  case finite q =>
    rw [htv] at h
    cases h
  all_goals rfl

lemma safeNumber_finite (q fb : ℚ) :
    safeNumber (JSValue.number (JSNum.finite q)) fb = q := rfl

lemma fetch_foldl_map_id (ts : List TokenData) (al : List PriceAlert) :
    (ts.foldl (fun al t => (checkPriceAlerts t.price t.symbol al).1) al).map
        (fun a => a.id) = al.map fun a => a.id := by
  induction ts generalizing al with
  | nil => rfl
  | cons t ts ih =>
    rw [List.foldl_cons, ih, checkPriceAlerts_map_id]

lemma fetchCryptoData_map_id (resp : Option ApiData) (r1 r2 : ℚ)
    (st : DashState) :
    (fetchCryptoData resp r1 r2 st).alerts.map (fun a => a.id) =
      st.alerts.map fun a => a.id := by
  cases resp with
  | none => rfl
  | some data =>
    simp only [fetchCryptoData]
    rw [fetch_foldl_map_id, checkPriceAlerts_map_id]

lemma shouldTrigger_iff (a : PriceAlert) (price : ℚ) :
    shouldTrigger a price = true ↔
      (a.type = AlertType.above ∧ a.threshold ≤ price) ∨
      (a.type = AlertType.below ∧ price ≤ a.threshold) := by
  simp [shouldTrigger]

lemma checkPriceAlerts_singleton_fired (a : PriceAlert) (price : ℚ)
    (ha : a.isActive = true) :
    (checkPriceAlerts price a.symbol [a]).2 = [a] ↔
      (a.type = AlertType.above ∧ a.threshold ≤ price) ∨
      (a.type = AlertType.below ∧ price ≤ a.threshold) := by
  rw [← shouldTrigger_iff]
  simp only [checkPriceAlerts, List.foldl_cons, List.foldl_nil, checkStep,
    alertMatches, ha, Bool.and_true, beq_self_eq_true, Bool.true_and]
  by_cases h : shouldTrigger a price
  · simp [h]
  · simp [h]

/-- C1: for every active alert, the evaluator run on its symbol triggers it
exactly when the direction is `above` and price ≥ threshold, or `below` and
price ≤ threshold; in particular an `above` alert with threshold 3000 on ETH
does not trigger at 2999.99 and leaves the list unchanged, triggers at
3000.00 and is then marked inactive, and once inactive does not trigger at
3000.00 again. -/
theorem alert_trigger_iff_spec (a : PriceAlert) (price : ℚ)
    (ha : a.isActive = true) :
    ((checkPriceAlerts price a.symbol [a]).2 = [a] ↔
      (a.type = AlertType.above ∧ a.threshold ≤ price) ∨
      (a.type = AlertType.below ∧ price ≤ a.threshold)) ∧
    checkPriceAlerts (mkRat 299999 100) "ETH" [ethAlert] = ([ethAlert], []) ∧
    checkPriceAlerts 3000 "ETH" [ethAlert] =
      ([deactivate ethAlert], [ethAlert]) ∧
    (deactivate ethAlert).isActive = false ∧
    checkPriceAlerts 3000 "ETH" [deactivate ethAlert] =
      ([deactivate ethAlert], []) := by
  refine ⟨checkPriceAlerts_singleton_fired a price ha, by decide, by decide,
    rfl, by decide⟩

/-- Witness for C1 at the concrete ETH alert and price 3000. -/
theorem alert_trigger_iff_spec_witness :
    ((checkPriceAlerts 3000 ethAlert.symbol [ethAlert]).2 = [ethAlert] ↔
      (ethAlert.type = AlertType.above ∧ ethAlert.threshold ≤ 3000) ∨
      (ethAlert.type = AlertType.below ∧ (3000 : ℚ) ≤ ethAlert.threshold)) ∧
    checkPriceAlerts (mkRat 299999 100) "ETH" [ethAlert] = ([ethAlert], []) ∧
    checkPriceAlerts 3000 "ETH" [ethAlert] =
      ([deactivate ethAlert], [ethAlert]) ∧
    (deactivate ethAlert).isActive = false ∧
    checkPriceAlerts 3000 "ETH" [deactivate ethAlert] =
      ([deactivate ethAlert], []) :=
  alert_trigger_iff_spec ethAlert 3000 rfl

/-- C2: over any sequence of evaluator invocations, an alert that is inactive
keeps its exact state (at its position in the list, whose length is
preserved) and never appears among the triggered alerts, hence never emits a
notification request. -/
theorem inactive_alert_frozen (seq : List (ℚ × String))
    (alerts : List PriceAlert) (n : ℕ) (h : n < alerts.length)
    (ha : (alerts.getD n dfltAlert).isActive = false) :
    (runChecks seq alerts).1.length = alerts.length ∧
    (runChecks seq alerts).1.getD n dfltAlert = alerts.getD n dfltAlert ∧
    alerts.getD n dfltAlert ∉ (runChecks seq alerts).2 := by
  refine ⟨runChecks_length seq alerts,
    runChecks_inactive_getD seq alerts n h ha, fun hmem => ?_⟩
  rw [runChecks_fired_active seq alerts _ hmem] at ha
  cases ha

/-- Witness for C2: a deactivated ETH alert survives two further evaluator
invocations at prices that meet its threshold. -/
theorem inactive_alert_frozen_witness :
    (runChecks [(3000, "ETH"), (4000, "ETH")] [deactivate ethAlert]).1.length =
      [deactivate ethAlert].length ∧
    (runChecks [(3000, "ETH"), (4000, "ETH")] [deactivate ethAlert]).1.getD 0
        dfltAlert = [deactivate ethAlert].getD 0 dfltAlert ∧
    [deactivate ethAlert].getD 0 dfltAlert ∉
      (runChecks [(3000, "ETH"), (4000, "ETH")] [deactivate ethAlert]).2 :=
  inactive_alert_frozen [(3000, "ETH"), (4000, "ETH")] [deactivate ethAlert] 0
    (by decide) (by decide)

/-- C3 counterexample: the boolean `true` is a non-numeric input, yet
`safeNumber` returns its coercion 1 rather than the supplied fallback 5,
because `Number(true) = 1` is finite. -/
theorem safeNumber_nonnumeric_counterexample :
    safeNumber (JSValue.boolean true) 5 = 1 ∧
    safeNumber (JSValue.boolean true) 5 ≠ 5 := by
  constructor
  · rfl
  · decide

/-- C3 (amended): `safeNumber` returns finite numbers unchanged and returns
the fallback when the input is absent (`undefined`), `NaN` or infinite; a
non-numeric input whose `Number` coercion is finite — `null` (coercion 0) or
a boolean (coercion 0 or 1) — yields that coercion, not the fallback. -/
theorem safeNumber_spec :
    (∀ q fb : ℚ, safeNumber (JSValue.number (JSNum.finite q)) fb = q) ∧
    (∀ fb : ℚ, safeNumber JSValue.undef fb = fb) ∧
    (∀ fb : ℚ, safeNumber (JSValue.number JSNum.nan) fb = fb) ∧
    (∀ fb : ℚ, safeNumber (JSValue.number JSNum.posInf) fb = fb) ∧
    (∀ fb : ℚ, safeNumber (JSValue.number JSNum.negInf) fb = fb) ∧
    (∀ fb : ℚ, safeNumber JSValue.null fb = 0) ∧
    (∀ (b : Bool) (fb : ℚ),
      safeNumber (JSValue.boolean b) fb = if b then 1 else 0) := by
  refine ⟨fun q fb => rfl, fun fb => rfl, fun fb => rfl, fun fb => rfl,
    fun fb => rfl, fun fb => rfl, fun b fb => rfl⟩

/-- C4: a failed fetch cycle (network error, non-ok response, or parse error)
leaves the token list, the synthesized token and the alert list exactly as
they were; it only clears the loading flag. -/
theorem fetch_failure_preserves_state (r1 r2 : ℚ) (st : DashState) :
    (fetchCryptoData none r1 r2 st).tokens = st.tokens ∧
    (fetchCryptoData none r1 r2 st).airToken = st.airToken ∧
    (fetchCryptoData none r1 r2 st).alerts = st.alerts :=
  ⟨rfl, rfl, rfl⟩

/-- C5 counterexample: 0 is non-negative, but `formatChange` tests
`change > 0` strictly, so 0 is formatted without the leading plus sign. -/
theorem formatChange_zero_counterexample :
    formatChange 0 = "0.00%" ∧ formatChange 0 ≠ "+0.00%" := by
  constructor
  · decide
  · decide

/-- C5 (amended): the percent formatter rounds to two decimal places and
appends a percent sign, with a leading `+` exactly for strictly positive
values (0 gets no sign); formatting -3.456 yields "-3.46%", formatting 5
yields "+5.00%", and formatting a price of 0.00676 with 5 decimals yields
"0.00676" (for both the exported formatters and the component-local ones,
which first normalise through `safeNumber`). -/
theorem formatChange_spec :
    (∀ q : ℚ, 0 < q → formatChange q = "+" ++ toFixed q 2 ++ "%") ∧
    (∀ q : ℚ, q ≤ 0 → formatChange q = toFixed q 2 ++ "%") ∧
    formatChange (mkRat (-3456) 1000) = "-3.46%" ∧
    formatChange 5 = "+5.00%" ∧
    formatChange 0 = "0.00%" ∧
    formatPrice (mkRat 676 100000) 5 = "0.00676" ∧
    formatChangeD (JSValue.number (JSNum.finite (mkRat (-3456) 1000))) =
      "-3.46%" ∧
    formatChangeD (JSValue.number (JSNum.finite 5)) = "+5.00%" ∧
    formatPriceD (JSValue.number (JSNum.finite (mkRat 676 100000))) 5 =
      "0.00676" := by
  refine ⟨fun q h => ?_, fun q h => ?_, by decide, by decide, by decide,
    by decide, by decide, by decide, by decide⟩
  · unfold formatChange
    rw [if_pos h]
  · unfold formatChange
    rw [if_neg (not_lt.2 h)]
    simp

/-- Witness for C5 (amended) at the strictly positive input 5. -/
theorem formatChange_spec_witness :
    formatChange 5 = "+" ++ toFixed 5 2 ++ "%" :=
  formatChange_spec.1 5 (by norm_num)

/-- C6 counterexample: the generated identifier is `Date.now().toString()`,
so two creations in the same millisecond generate the same string. Creating
an ETH alert while a BTC alert created in the same millisecond (id "100")
already exists appends the new alert with the same id "100": the appended
identifier is not unique in the list. -/
theorem create_alert_unique_counterexample :
    handleSubmit "100" "ETH" AlertType.above (some 3000)
        [ { id := "100", symbol := "BTC", type := AlertType.above,
            threshold := 50000, isActive := true } ] =
      [ { id := "100", symbol := "BTC", type := AlertType.above,
          threshold := 50000, isActive := true },
        { id := "100", symbol := "ETH", type := AlertType.above,
          threshold := 3000, isActive := true } ] ∧
    ¬ (([ { id := "100", symbol := "BTC", type := AlertType.above,
            threshold := 50000, isActive := true },
          { id := "100", symbol := "ETH", type := AlertType.above,
            threshold := 3000, isActive := true } ] :
        List PriceAlert).map fun a => a.id).Nodup := by
  constructor
  · decide
  · decide

/-- C6 (amended): submitting a strictly positive threshold appends exactly
one new alert, active and carrying the identifier generated from the
creation timestamp; that identifier is unique in the list whenever the
generated one does not collide with an existing alert's identifier
(creations in the same millisecond collide). A non-positive threshold or a
non-numeric one (`parseFloat` returning `NaN`, modelled as `none`) is
rejected with the alert list unchanged. -/
theorem create_alert_spec (nowId symbol : String) (ty : AlertType)
    (alerts : List PriceAlert) :
    (∀ t : ℚ, 0 < t →
      handleSubmit nowId symbol ty (some t) alerts =
        alerts ++ [{ id := nowId, symbol := symbol, type := ty,
                     threshold := t, isActive := true }]) ∧
    (∀ t : ℚ, 0 < t → (alerts.map fun a => a.id).Nodup →
      nowId ∉ alerts.map (fun a => a.id) →
      ((handleSubmit nowId symbol ty (some t) alerts).map fun a => a.id).Nodup) ∧
    (∀ t : ℚ, ¬ 0 < t → handleSubmit nowId symbol ty (some t) alerts = alerts) ∧
    handleSubmit nowId symbol ty none alerts = alerts := by
  refine ⟨fun t ht => ?_, fun t ht hn hfresh => ?_, fun t ht => ?_, rfl⟩
  · simp [handleSubmit, if_pos ht, createAlert]
  · simp only [handleSubmit, if_pos ht, createAlert, List.map_append,
      List.map_cons, List.map_nil]
    simp [List.nodup_append, hn, hfresh]
  · simp [handleSubmit, if_neg ht]

/-- Witness for C6: threshold 3000 on an empty alert list. -/
theorem create_alert_spec_witness :
    handleSubmit "1700000000000" "ETH" AlertType.above (some 3000) [] =
      [{ id := "1700000000000", symbol := "ETH", type := AlertType.above,
         threshold := 3000, isActive := true }] :=
  (create_alert_spec "1700000000000" "ETH" AlertType.above []).1 3000
    (by norm_num)

/-- C7: deleting by identifier removes every alert with that identifier,
active or not, and keeps exactly the others; and a fetch cycle (successful
or failed) preserves the list of alert identifiers, so it never re-adds a
deleted alert. -/
theorem delete_alert_spec :
    (∀ (i : String) (alerts : List PriceAlert) (a : PriceAlert),
      a ∈ deleteAlert i alerts ↔ a ∈ alerts ∧ a.id ≠ i) ∧
    (∀ (resp : Option ApiData) (r1 r2 : ℚ) (st : DashState),
      (fetchCryptoData resp r1 r2 st).alerts.map (fun a => a.id) =
        st.alerts.map fun a => a.id) := by
  refine ⟨fun i alerts a => ?_, fetchCryptoData_map_id⟩
  simp [deleteAlert, List.mem_filter]

/-- C8: when every numeric field of a successful response is missing or
invalid (its `Number` coercion `NaN` or infinite), the built token list is
exactly the documented fallback list: ETH 2340, BTC 43250, USDC 1.00,
LINK 14.85, UNI 6.42, each with 24h change 0. -/
theorem buildTokens_fallback (data : ApiData)
    (h1 : badNum data.ethereum_usd = true)
    (h2 : badNum data.ethereum_change = true)
    (h3 : badNum data.bitcoin_usd = true)
    (h4 : badNum data.bitcoin_change = true)
    (h5 : badNum data.usd_coin_usd = true)
    (h6 : badNum data.usd_coin_change = true)
    (h7 : badNum data.chainlink_usd = true)
    (h8 : badNum data.chainlink_change = true)
    (h9 : badNum data.uniswap_usd = true)
    (h10 : badNum data.uniswap_change = true) :
    buildTokens data =
      [ { symbol := "ETH", name := "Ethereum", price := 2340,
          change24h := 0, contract := none },
        { symbol := "BTC", name := "Bitcoin", price := 43250,
          change24h := 0, contract := none },
        { symbol := "USDC", name := "USD Coin", price := 1.0,
          change24h := 0, contract := none },
        { symbol := "LINK", name := "Chainlink", price := 14.85,
          change24h := 0, contract := none },
        { symbol := "UNI", name := "Uniswap", price := 6.42,
          change24h := 0, contract := none } ] := by
  unfold buildTokens
  rw [safeNumber_of_badNum _ _ h1, safeNumber_of_badNum _ _ h2,
    safeNumber_of_badNum _ _ h3, safeNumber_of_badNum _ _ h4,
    safeNumber_of_badNum _ _ h5, safeNumber_of_badNum _ _ h6,
    safeNumber_of_badNum _ _ h7, safeNumber_of_badNum _ _ h8,
    safeNumber_of_badNum _ _ h9, safeNumber_of_badNum _ _ h10]

/-- Witness for C8 at the response with every read field absent. -/
theorem buildTokens_fallback_witness :
    buildTokens allUndefData =
      [ { symbol := "ETH", name := "Ethereum", price := 2340,
          change24h := 0, contract := none },
        { symbol := "BTC", name := "Bitcoin", price := 43250,
          change24h := 0, contract := none },
        { symbol := "USDC", name := "USD Coin", price := 1.0,
          change24h := 0, contract := none },
        { symbol := "LINK", name := "Chainlink", price := 14.85,
          change24h := 0, contract := none },
        { symbol := "UNI", name := "Uniswap", price := 6.42,
          change24h := 0, contract := none } ] :=
  buildTokens_fallback allUndefData rfl rfl rfl rfl rfl rfl rfl rfl rfl rfl

/-- C9 counterexample: with two alerts sharing the identifier "1", the
evaluator invoked for symbol "A" at price 10 triggers the first alert and
deactivates by id, thereby also mutating the second alert even though its
symbol "B" does not match the evaluated symbol and its own condition does
not hold. -/
theorem evaluator_frame_counterexample :
    (checkPriceAlerts 10 "A"
        [ { id := "1", symbol := "A", type := AlertType.above,
            threshold := 10, isActive := true },
          { id := "1", symbol := "B", type := AlertType.above,
            threshold := 999, isActive := true } ]).1.getD 1 dfltAlert ≠
      ({ id := "1", symbol := "B", type := AlertType.above,
         threshold := 999, isActive := true } : PriceAlert) ∧
    ({ id := "1", symbol := "B", type := AlertType.above,
       threshold := 999, isActive := true } : PriceAlert).symbol ≠ "A" := by
  constructor
  · decide
  · decide

/-- C9 (amended): when the alert identifiers are pairwise distinct — as they
are whenever creation timestamps do not collide — the evaluator preserves
the list length and every alert's id, symbol, direction and threshold;
an alert whose guard (symbol match, active, trigger condition) fails is left
entirely unchanged, and an inactive alert is never made active. -/
theorem evaluator_frame_spec (p : ℚ) (s : String) (l : List PriceAlert)
    (hn : (l.map fun a => a.id).Nodup) (n : ℕ) (h : n < l.length) :
    (checkPriceAlerts p s l).1.length = l.length ∧
    ((checkPriceAlerts p s l).1.getD n dfltAlert).id =
      (l.getD n dfltAlert).id ∧
    ((checkPriceAlerts p s l).1.getD n dfltAlert).symbol =
      (l.getD n dfltAlert).symbol ∧
    ((checkPriceAlerts p s l).1.getD n dfltAlert).type =
      (l.getD n dfltAlert).type ∧
    ((checkPriceAlerts p s l).1.getD n dfltAlert).threshold =
      (l.getD n dfltAlert).threshold ∧
    (alertMatches p s (l.getD n dfltAlert) = false →
      (checkPriceAlerts p s l).1.getD n dfltAlert = l.getD n dfltAlert) ∧
    ((l.getD n dfltAlert).isActive = false →
      ((checkPriceAlerts p s l).1.getD n dfltAlert).isActive = false) := by
  have hg := checkPriceAlerts_getD p s l n h
  have hmem : l.getD n dfltAlert ∈ l := by
    rw [List.getD_eq_getElem _ _ h]
    exact List.getElem_mem h
  refine ⟨checkPriceAlerts_length p s l, ?_, ?_, ?_, ?_, fun hfail => ?_,
    fun hina => ?_⟩
  · rw [hg]
    by_cases hm : (l.getD n dfltAlert).id ∈ triggeredIds p s l
    · rw [if_pos hm]; rfl
    · rw [if_neg hm]
  · rw [hg]
    by_cases hm : (l.getD n dfltAlert).id ∈ triggeredIds p s l
    · rw [if_pos hm]; rfl
    · rw [if_neg hm]
  · rw [hg]
    by_cases hm : (l.getD n dfltAlert).id ∈ triggeredIds p s l
    · rw [if_pos hm]; rfl
    · rw [if_neg hm]
  · rw [hg]
    by_cases hm : (l.getD n dfltAlert).id ∈ triggeredIds p s l
    · rw [if_pos hm]; rfl
    · rw [if_neg hm]
  · rw [hg, if_neg (not_mem_triggeredIds p s l hn _ hmem hfail)]
  · rw [hg]
    by_cases hm : (l.getD n dfltAlert).id ∈ triggeredIds p s l
    · rw [if_pos hm]; rfl
    · rw [if_neg hm]; exact hina

/-- Witness for C9 (amended): two distinct-id alerts, evaluating "A" at
price 10. -/
theorem evaluator_frame_spec_witness :
    (checkPriceAlerts 10 "A" frameWitnessAlerts).1.length =
      frameWitnessAlerts.length ∧
    ((checkPriceAlerts 10 "A" frameWitnessAlerts).1.getD 1 dfltAlert).id =
      (frameWitnessAlerts.getD 1 dfltAlert).id ∧
    ((checkPriceAlerts 10 "A" frameWitnessAlerts).1.getD 1 dfltAlert).symbol =
      (frameWitnessAlerts.getD 1 dfltAlert).symbol ∧
    ((checkPriceAlerts 10 "A" frameWitnessAlerts).1.getD 1 dfltAlert).type =
      (frameWitnessAlerts.getD 1 dfltAlert).type ∧
    ((checkPriceAlerts 10 "A" frameWitnessAlerts).1.getD 1 dfltAlert).threshold =
      (frameWitnessAlerts.getD 1 dfltAlert).threshold ∧
    (alertMatches 10 "A" (frameWitnessAlerts.getD 1 dfltAlert) = false →
      (checkPriceAlerts 10 "A" frameWitnessAlerts).1.getD 1 dfltAlert =
        frameWitnessAlerts.getD 1 dfltAlert) ∧
    ((frameWitnessAlerts.getD 1 dfltAlert).isActive = false →
      ((checkPriceAlerts 10 "A" frameWitnessAlerts).1.getD 1 dfltAlert).isActive =
        false) :=
  evaluator_frame_spec 10 "A" frameWitnessAlerts (by decide) 1 (by decide)

/-- C10: for jitter draws in `[0, 1)` the synthesized AIR token's price lies
in `[0.00676 - 0.000025, 0.00676 + 0.000025)` and its 24h change lies in
`[1.8 - 1.5, 1.8 + 1.5)`; in particular the price is strictly positive. -/
theorem air_token_bounds (r1 r2 : ℚ) (h10 : 0 ≤ r1) (h11 : r1 < 1)
    (h20 : 0 ≤ r2) (h21 : r2 < 1) :
    ((0.00676 - 0.000025 : ℚ) ≤ (airTokenData r1 r2).price ∧
      (airTokenData r1 r2).price < 0.00676 + 0.000025) ∧
    ((1.8 - 1.5 : ℚ) ≤ (airTokenData r1 r2).change24h ∧
      (airTokenData r1 r2).change24h < 1.8 + 1.5) ∧
    0 < (airTokenData r1 r2).price := by
  have hp : (airTokenData r1 r2).price = 0.00676 + (r1 - 0.5) * 0.00005 := rfl
  have hc : (airTokenData r1 r2).change24h = 1.8 + (r2 - 0.5) * 3 := rfl
  rw [hp, hc]
  norm_num
  refine ⟨⟨by linarith, by linarith⟩, ⟨by linarith, by linarith⟩, by linarith⟩

/-- Witness for C10 at both draws equal to 0. -/
theorem air_token_bounds_witness :
    ((0.00676 - 0.000025 : ℚ) ≤ (airTokenData 0 0).price ∧
      (airTokenData 0 0).price < 0.00676 + 0.000025) ∧
    ((1.8 - 1.5 : ℚ) ≤ (airTokenData 0 0).change24h ∧
      (airTokenData 0 0).change24h < 1.8 + 1.5) ∧
    0 < (airTokenData 0 0).price :=
  air_token_bounds 0 0 (by norm_num) (by norm_num) (by norm_num) (by norm_num)

end EthosTracker
